import Mathlib

/-!
Verification of the form-autofill engine (chrome-extension/js/content.js).

Shallow embedding of the field-identification and value-coercion engine of
the AI Form Filling Assistant content script.  JavaScript strings are
modelled as Lean `String` (lists of characters via `String.data`); JS
numbers arising from `parseInt` of digit strings are modelled as `Nat`
(or `Option Int` for the general `parseInt`, `none` standing for `NaN`);
JS objects become structures; `null`/`undefined` results become `Option`.
DOM elements are modelled by a record of the attributes the engine reads;
the label text resolved by `getFieldLabel` (a DOM walk) is carried as a
field of that record.
-/

/-- ASCII digit test, the semantics of the JS regex class `\d`. -/
def isDigit (c : Char) : Bool := '0' ≤ c && c ≤ '9'

/-- Separator class of the date regexes: the JS character class `[\/\-\.]`. -/
def isSep (c : Char) : Bool := c = '/' || c = '-' || c = '.'

/-- Decimal value of a digit character (JS `parseInt` on a single digit). -/
def charToDigit (c : Char) : Nat := c.toNat - 48

/-- The character for a decimal digit, as produced by JS `String(n)`. -/
def digitChar (d : Nat) : Char :=
  match d with
  | 0 => '0' | 1 => '1' | 2 => '2' | 3 => '3' | 4 => '4'
  | 5 => '5' | 6 => '6' | 7 => '7' | 8 => '8' | _ => '9'

/-- Decimal value of a digit string: the semantics of JS `parseInt` on a
string that is entirely decimal digits. -/
def digitsToNat (l : List Char) : Nat :=
  l.foldl (fun a c => 10 * a + charToDigit c) 0

/-- Embedding of JS `String(n)` for a natural number: auxiliary
accumulator form, structurally recursive on a fuel argument so that the
kernel can evaluate it (any fuel at least `n` computes the digits). -/
def natToDigitsAux (fuel n : Nat) (acc : List Char) : List Char :=
  match fuel with
  | 0 => acc
  | fuel' + 1 =>
    if n = 0 then acc
    else natToDigitsAux fuel' (n / 10) (digitChar (n % 10) :: acc)

/-- Decimal digit list of `n` (empty for `n = 0`; JS `String(0)` is
handled by the wrapper below). -/
def natDigits (n : Nat) : List Char := natToDigitsAux n n []

/-- Embedding of JS `String(n)` for a natural number. -/
def natToString (n : Nat) : List Char :=
  if n = 0 then ['0'] else natDigits n

/-- Embedding of JS `String.prototype.padStart(2, '0')`. -/
def padStart2 (l : List Char) : List Char :=
  if 2 ≤ l.length then l else List.replicate (2 - l.length) '0' ++ l

/-- The canonical date object produced by `parseDate`
(content.js lines 411-463).  The JS objects of the two full-date branches
carry no `yearOnly` key; its absence (a falsy read) is modelled by
`yearOnly = false`. -/
structure CanonicalDate where
  day : Nat
  month : Nat
  year : Nat
  yearOnly : Bool := false
deriving DecidableEq

/-- Splits a character list as `digits, separator, digits, separator,
digits` with nothing left over: the common backbone of the two full-date
regexes `^(\d{1,2})[\/\-\.](\d{1,2})[\/\-\.](\d{4})$` and
`^(\d{4})[\/\-\.](\d{1,2})[\/\-\.](\d{1,2})$` of `parseDate`
(group lengths are checked by the caller). -/
def splitDMY (s : List Char) : Option (List Char × List Char × List Char) :=
  let d1 := s.takeWhile isDigit
  match s.dropWhile isDigit with
  | c1 :: rest1 =>
    if isSep c1 then
      let d2 := rest1.takeWhile isDigit
      match rest1.dropWhile isDigit with
      | c2 :: rest2 =>
        if isSep c2 then
          let d3 := rest2.takeWhile isDigit
          if rest2.dropWhile isDigit = [] then some (d1, d2, d3) else none
        else none
      | [] => none
    else none
  | [] => none

/-- Embedding of `parseDate` of content.js (lines 411-463), on the character list of the
input string.  Recognizes, in order: a bare 4-digit year
(`^(\d{4})$`, returned with `yearOnly = true` and day/month 1); a
day-sep-month-sep-year shape `\d{1,2} \d{1,2} \d{4}` disambiguated
day-first; an ISO shape `\d{4} \d{1,2} \d{1,2}` (separators drawn from
slash, dash, dot).  Returns `none` otherwise (the JS `null`). -/
def parseDateL (cs : List Char) : Option CanonicalDate :=
  if cs = [] then none
  else if cs.length = 4 ∧ cs.all isDigit then
    some { day := 1, month := 1, year := digitsToNat cs, yearOnly := true }
  else
    match splitDMY cs with
    | some (d1, d2, d3) =>
      if (d1.length = 1 ∨ d1.length = 2) ∧ (d2.length = 1 ∨ d2.length = 2) ∧
          d3.length = 4 then
        let first := digitsToNat d1
        let second := digitsToNat d2
        let year := digitsToNat d3
        if second ≤ 12 then
          some { day := first, month := second, year := year }
        else if first ≤ 12 then
          some { day := second, month := first, year := year }
        else
          some { day := first, month := min second 12, year := year }
      else if d1.length = 4 ∧ (d2.length = 1 ∨ d2.length = 2) ∧
          (d3.length = 1 ∨ d3.length = 2) then
        some { day := digitsToNat d3, month := digitsToNat d2,
               year := digitsToNat d1 }
      else none
    | none => none

/-- Wrapper: `parseDate` on a Lean `String`. -/
def parseDate (s : String) : Option CanonicalDate := parseDateL s.data

/-- The capitalized three-letter month-name table of
`formatDateToExpected` (content.js line 539). -/
def monthNamesFmt : List String :=
  ["Jan", "Feb", "Mar", "Apr", "May", "Jun",
   "Jul", "Aug", "Sep", "Oct", "Nov", "Dec"]

/-- Embedding of `formatDateToExpected` of content.js (lines 538-559), producing the
character list of the output string.  `monthNames[dateObj.month - 1]` is
an out-of-bounds (undefined) access when `month` is 0 or exceeds 12; in a
JS template literal that renders as the text `undefined`, modelled by the
default of `getD` (and an explicit `month = 0` guard, since Lean's
truncated `0 - 1` would otherwise read index 0). -/
def formatDateToExpectedL (dateObj : CanonicalDate) (format : String) :
    List Char :=
  let day := padStart2 (natToString dateObj.day)
  let month := padStart2 (natToString dateObj.month)
  let year := natToString dateObj.year
  let monthName :=
    if dateObj.month = 0 then "undefined".data
    else ((monthNamesFmt.getD (dateObj.month - 1) "undefined").data)
  if format = "DD-Mon-YYYY" then day ++ '-' :: (monthName ++ '-' :: year)
  else if format = "DD/MM/YYYY" then day ++ '/' :: (month ++ '/' :: year)
  else if format = "DD-MM-YYYY" then day ++ '-' :: (month ++ '-' :: year)
  else if format = "MM/DD/YYYY" then month ++ '/' :: (day ++ '/' :: year)
  else if format = "YYYY-MM-DD" then year ++ '-' :: (month ++ '-' :: day)
  else day ++ '/' :: (month ++ '/' :: year)

/-- Wrapper: `formatDateToExpected` returning a Lean `String`. -/
def formatDateToExpected (dateObj : CanonicalDate) (format : String) :
    String := ⟨formatDateToExpectedL dateObj format⟩

/-- The match test of the `parseDate` regex `^(\d{4})$` (bare year). -/
def matchesYearOnly (cs : List Char) : Bool :=
  decide (cs.length = 4) && cs.all isDigit

/-- The match test of the `parseDate` day-first regex
`^(\d{1,2})[\/\-\.](\d{1,2})[\/\-\.](\d{4})$`. -/
def matchesDMY (cs : List Char) : Bool :=
  match splitDMY cs with
  | some (d1, d2, d3) =>
    decide ((d1.length = 1 ∨ d1.length = 2) ∧ (d2.length = 1 ∨ d2.length = 2) ∧
      d3.length = 4)
  | none => false

/-- The match test of the `parseDate` ISO regex
`^(\d{4})[\/\-\.](\d{1,2})[\/\-\.](\d{1,2})$`. -/
def matchesISO (cs : List Char) : Bool :=
  match splitDMY cs with
  | some (d1, d2, d3) =>
    decide (d1.length = 4 ∧ (d2.length = 1 ∨ d2.length = 2) ∧
      (d3.length = 1 ∨ d3.length = 2))
  | none => false

/-! DOM-side model: elements, classifier, select resolver, writer -/

/-- An `<option>` child of a select, with the two attributes the engine
reads. -/
structure OptionEl where
  value : String
  text : String
deriving DecidableEq

/-- A DOM control, modelled by the attributes the engine reads.
`labelText` carries the result of the `getFieldLabel` DOM walk
(content.js lines 171-189), which is context the classifier receives. -/
structure Element where
  tagName : String
  type : String
  name : String
  id : String
  placeholder : String
  ariaLabel : String
  labelText : String
  pattern : String
  value : String
  checked : Bool
  options : List OptionEl
deriving DecidableEq

/-- Embedding of JS `String.prototype.toLowerCase` (ASCII letters; the
engine's identifiers and patterns are ASCII). -/
def jsToLower (s : String) : String := ⟨s.data.map Char.toLower⟩

/-- Embedding of JS `String.prototype.includes`: `sub` occurs
contiguously in `s`. -/
def strIncludes (s sub : String) : Bool :=
  (List.range (s.data.length + 1)).any (fun i => sub.data.isPrefixOf (s.data.drop i))

/-- JS `a || b` on strings: `a` unless it is falsy (empty). -/
def jsOr (a b : String) : String := if a = "" then b else a

/-- Embedding of JS `parseInt` with inferred radix 10: skips leading
whitespace, accepts an optional sign, converts the longest leading digit
run, and yields `none` for `NaN` (no digits; hex prefixes are not
modelled, no engine value carries one). -/
def jsParseInt (s : String) : Option Int :=
  let t := s.data.dropWhile (fun c => c = ' ' || c = '\t' || c = '\n' || c = '\r')
  let core : List Char → Option Nat := fun l =>
    let ds := l.takeWhile isDigit
    if ds = [] then none else some (digitsToNat ds)
  match t with
  | '-' :: rest => (core rest).map (fun n => -(n : Int))
  | '+' :: rest => (core rest).map (fun n => (n : Int))
  | _ => (core t).map (fun n => (n : Int))

/-- Embedding of `FIELD_MAPPING` of content.js (lines 21-44), in insertion order (the
order `Object.entries` iterates). -/
def FIELD_MAPPING : List (String × List String) :=
  [("name", ["name", "full_name", "fullname", "applicant_name",
      "applicantname"]),
   ("full_name", ["name", "full_name", "fullname", "applicant_name"]),
   ("father_name", ["father_name", "fathername", "father", "guardian_name",
      "father_husband"]),
   ("aadhaar_number", ["aadhaar", "aadhar", "aadhaar_no", "uid", "uidai"]),
   ("pan_number", ["pan", "pan_no", "pancard", "pan_number"]),
   ("voter_id_number", ["voter_id", "voterid", "epic", "epic_no"]),
   ("date_of_birth", ["dob", "date_of_birth", "dateofbirth", "birth_date",
      "birthdate"]),
   ("gender", ["gender", "sex"]),
   ("address", ["address", "full_address", "residential_address",
      "permanent_address"]),
   ("mobile_number", ["mobile", "mobile_no", "mobile_number", "phone",
      "phone_no", "phone_number", "contact", "contact_no", "cell"]),
   ("email", ["email", "email_id", "emailid", "mail", "mail_id",
      "email_address"]),
   ("community", ["community", "caste", "category"]),
   ("annual_income", ["income", "annual_income", "yearly_income"])]

/-- The spec's closed fifteen-entry semantic field-type vocabulary
(spec section 6). -/
def semanticFieldTypes : List String :=
  ["full_name", "full_name_regional", "father_name", "aadhaar_number",
   "pan_number", "voter_id_number", "driving_license_number",
   "date_of_birth", "gender", "address", "mobile_number", "email",
   "community", "annual_income", "blood_group"]

/-- The classification record `identifyField` returns. -/
structure FieldInfo where
  fieldType : String
  identifier : String
  label : String
deriving DecidableEq

/-- Embedding of `identifyField` of content.js (lines 138-168): excludes
hidden/submit/button controls, lower-cases the five identifier sources,
drops the falsy (empty) ones, and scans `FIELD_MAPPING` in order for the
first (type, pattern, identifier) triple passing the bidirectional
substring test. -/
def identifyField (input : Element) : Option FieldInfo :=
  if input.type = "hidden" ∨ input.type = "submit" ∨ input.type = "button"
  then none
  else
    let name := jsToLower input.name
    let id := jsToLower input.id
    let placeholder := jsToLower input.placeholder
    let label := jsToLower input.labelText
    let ariaLabel := jsToLower input.ariaLabel
    let identifiers :=
      [name, id, placeholder, label, ariaLabel].filter (fun s => s ≠ "")
    FIELD_MAPPING.findSome? (fun entry =>
      entry.2.findSome? (fun pat =>
        identifiers.findSome? (fun identifier =>
          if strIncludes identifier pat || strIncludes pat identifier then
            some ⟨entry.1, jsOr name id,
              jsOr label (jsOr placeholder (jsOr name id))⟩
          else none)))

/-- Embedding of `isDateField` of content.js (lines 466-473). -/
def isDateField (element : Element) : Bool :=
  let name := jsToLower element.name
  let id := jsToLower element.id
  let placeholder := jsToLower element.placeholder
  strIncludes name "date" || strIncludes name "dob" ||
    strIncludes id "date" || strIncludes id "dob" ||
    strIncludes placeholder "date" || strIncludes placeholder "dd"

/-- Embedding of `isDateRelatedSelect` of content.js (lines 476-483). -/
def isDateRelatedSelect (element : Element) : Bool :=
  let name := jsToLower element.name
  let id := jsToLower element.id
  strIncludes name "day" || strIncludes name "month" ||
    strIncludes name "year" || strIncludes name "date" ||
    strIncludes name "dob" || strIncludes id "day" ||
    strIncludes id "month" || strIncludes id "year" ||
    strIncludes id "date" || strIncludes id "dob"

/-- The lower-case month-abbreviation table used by the select heuristics
and the month-option matcher (content.js lines 340 and 496). -/
def monthNamesLower : List String :=
  ["jan", "feb", "mar", "apr", "may", "jun",
   "jul", "aug", "sep", "oct", "nov", "dec"]

/-- The test of the JS regex `^(jan|feb|...|dec)` with the `i` flag:
case-insensitive month-abbreviation at the start of the string. -/
def startsWithMonthName (v : String) : Bool :=
  monthNamesLower.any (fun m => m.data.isPrefixOf (jsToLower v).data)

/-- The day hint of `detectSelectPurpose` (content.js line 490): `day` on
name or id, `dd` on name only. -/
def dayHint (element : Element) : Bool :=
  strIncludes (jsToLower element.name) "day" ||
    strIncludes (jsToLower element.id) "day" ||
    strIncludes (jsToLower element.name) "dd"

/-- The month hint of `detectSelectPurpose` (content.js line 491):
`month` on name or id, `mm` on name only. -/
def monthHint (element : Element) : Bool :=
  strIncludes (jsToLower element.name) "month" ||
    strIncludes (jsToLower element.id) "month" ||
    strIncludes (jsToLower element.name) "mm"

/-- The year hint of `detectSelectPurpose` (content.js line 492):
`year` on name or id, `yyyy` and `yy` on name only. -/
def yearHint (element : Element) : Bool :=
  strIncludes (jsToLower element.name) "year" ||
    strIncludes (jsToLower element.id) "year" ||
    strIncludes (jsToLower element.name) "yyyy" ||
    strIncludes (jsToLower element.name) "yy"

/-- Embedding of `options.map(o => o.value || o.text)` (content.js line 495). -/
def optionValues (options : List OptionEl) : List String :=
  options.map (fun o => if o.value = "" then o.text else o.value)

/-- The purely-numeric option values, as numbers
(content.js line 500: `values.filter(v => /^\d+$/.test(v)).map(parseInt)`). -/
def numericOptionValues (options : List OptionEl) : List Nat :=
  ((optionValues options).filter
    (fun v => !(v.data.isEmpty) && v.data.all isDigit)).map
    (fun v => digitsToNat v.data)

/-- Embedding of `detectSelectPurpose` of content.js (lines 486-509).  `Math.max` over
the (guaranteed nonempty, nonnegative) numeric values is modelled by a
fold of `max` from 0. -/
def detectSelectPurpose (element : Element) (options : List OptionEl) :
    Option String :=
  if dayHint element then some "day"
  else if monthHint element then some "month"
  else if yearHint element then some "year"
  else if (optionValues options).any startsWithMonthName then some "month"
  else
    let numericValues := numericOptionValues options
    if 0 < numericValues.length then
      let mx := numericValues.foldl max 0
      if mx ≤ 31 ∧ 28 ≤ mx then some "day"
      else if mx = 12 ∨ (mx ≤ 12 ∧ numericValues.length ≤ 13) then
        some "month"
      else if 1900 < mx then some "year"
      else none
    else none

/-- Embedding of `detectDateFormat` of content.js (lines 512-535): placeholder
substring sniffing, first match wins, default `DD/MM/YYYY` (the `pattern`
attribute is read by the source but never used). -/
def detectDateFormat (element : Element) : String :=
  let placeholder := jsToLower element.placeholder
  if strIncludes placeholder "dd-mmm-yyyy" ||
      strIncludes placeholder "dd-mon-yyyy" then "DD-Mon-YYYY"
  else if strIncludes placeholder "dd/mm/yyyy" then "DD/MM/YYYY"
  else if strIncludes placeholder "dd-mm-yyyy" then "DD-MM-YYYY"
  else if strIncludes placeholder "mm/dd/yyyy" then "MM/DD/YYYY"
  else if strIncludes placeholder "yyyy-mm-dd" then "YYYY-MM-DD"
  else "DD/MM/YYYY"

/-- Embedding of `monthNames[dateVal.month - 1]` of the month-option matcher
(content.js line 346): an out-of-range index yields JS `undefined`,
which `String.prototype.includes` coerces to the text `undefined`. -/
def monthNameLowerAt (m : Nat) : String :=
  if m = 0 then "undefined" else monthNamesLower.getD (m - 1) "undefined"

/-- Embedding of `fillField` of content.js (lines 324-408).  The returned pair is the
updated element together with the list of synthetic events dispatched on
it, in dispatch order.  JS `fieldType = null` default is `none`. -/
def fillField (element : Element) (value : String)
    (fieldType : Option String) : Element × List String :=
  if element.tagName = "SELECT" then
    let options := element.options
    if fieldType = some "date_of_birth" ∨ isDateRelatedSelect element then
      match parseDate value with
      | some dateVal =>
        let el :=
          if detectSelectPurpose element options = some "day" then
            match options.find? (fun opt =>
                jsParseInt opt.value = some (dateVal.day : Int) ||
                jsParseInt opt.text = some (dateVal.day : Int)) with
            | some m => { element with value := m.value }
            | none => element
          else if detectSelectPurpose element options = some "month" then
            match options.find? (fun opt =>
                jsParseInt opt.value = some (dateVal.month : Int) ||
                jsParseInt opt.text = some (dateVal.month : Int) ||
                strIncludes (jsToLower opt.value)
                  (monthNameLowerAt dateVal.month) ||
                strIncludes (jsToLower opt.text)
                  (monthNameLowerAt dateVal.month)) with
            | some m => { element with value := m.value }
            | none => element
          else if detectSelectPurpose element options = some "year" then
            match options.find? (fun opt =>
                jsParseInt opt.value = some (dateVal.year : Int) ||
                jsParseInt opt.text = some (dateVal.year : Int)) with
            | some m => { element with value := m.value }
            | none => element
          else
            match options.find? (fun opt =>
                jsToLower opt.value = jsToLower value ||
                jsToLower opt.text = jsToLower value) with
            | some m => { element with value := m.value }
            | none => element
        (el, ["change"])
      | none =>
        let el :=
          match options.find? (fun opt =>
              jsToLower opt.value = jsToLower value ||
              jsToLower opt.text = jsToLower value) with
          | some m => { element with value := m.value }
          | none => element
        (el, ["input", "change"])
    else
      let el :=
        match options.find? (fun opt =>
            jsToLower opt.value = jsToLower value ||
            jsToLower opt.text = jsToLower value) with
        | some m => { element with value := m.value }
        | none => element
      (el, ["input", "change"])
  else if element.type = "radio" ∨ element.type = "checkbox" then
    let el :=
      if jsToLower element.value = jsToLower value then
        { element with checked := true }
      else element
    (el, ["input", "change"])
  else if element.type = "date" then
    let el :=
      match parseDate value with
      | some dateVal =>
        { element with value :=
            ⟨natToString dateVal.year ++
              '-' :: (padStart2 (natToString dateVal.month) ++
                '-' :: padStart2 (natToString dateVal.day))⟩ }
      | none => { element with value := value }
    (el, ["input", "change"])
  else
    let el :=
      if fieldType = some "date_of_birth" ∨ isDateField element then
        match parseDate value with
        | some dateVal =>
          { element with value :=
              formatDateToExpected dateVal (detectDateFormat element) }
        | none => { element with value := value }
      else { element with value := value }
    (el, ["input", "change"])

/-- The sensitive field types of `maskSensitiveValue`
(content.js line 720). -/
def sensitiveFields : List String :=
  ["aadhaar_number", "pan_number", "voter_id_number"]

/-- Embedding of `maskSensitiveValue` of content.js (lines 719-727): for a sensitive
field type and a value longer than 4 characters, all but the last 4
characters become `X`; otherwise the value is returned unchanged. -/
def maskSensitiveValue (fieldType : String) (value : String) : String :=
  if fieldType ∈ sensitiveFields ∧ 4 < value.length then
    ⟨List.replicate (value.length - 4) 'X' ++
      value.data.drop (value.data.length - 4)⟩
  else value

/-- A bare text input with every attribute empty, the base control of the
concrete witnesses and counterexamples below. -/
def blankInput : Element :=
  ⟨"INPUT", "text", "", "", "", "", "", "", "", false, []⟩

/-- A date-related day select (name `dob_day`) with a single option 25,
used by the value-writer counterexample. -/
def dobDaySelect : Element :=
  { blankInput with
    tagName := "SELECT"
    name := "dob_day"
    options := [⟨"25", "25"⟩] }

/-! Arithmetic facts about the decimal-digit embedding -/

theorem digitChar_isDigit (d : Nat) : isDigit (digitChar d) = true := by
  rcases d with _|_|_|_|_|_|_|_|_|d <;> rfl

theorem charToDigit_digitChar (d : Nat) (h : d < 10) :
    charToDigit (digitChar d) = d := by
  interval_cases d <;> rfl

theorem natToDigitsAux_eq (n : Nat) : ∀ (fuel : Nat) (acc : List Char),
    n ≤ fuel → natToDigitsAux fuel n acc = natDigits n ++ acc := by
  induction n using Nat.strong_induction_on with
  | _ n ih =>
    intro fuel acc hfuel
    match fuel with
    | 0 =>
      have hn : n = 0 := by omega
      subst hn; rfl
    | fuel' + 1 =>
      by_cases hn : n = 0
      · subst hn; rfl
      · have hdiv : n / 10 < n := Nat.div_lt_self (by omega) (by omega)
        have h1 : natToDigitsAux (fuel' + 1) n acc =
            natToDigitsAux fuel' (n / 10) (digitChar (n % 10) :: acc) := by
          simp [natToDigitsAux, hn]
        rw [h1, ih (n / 10) hdiv fuel' _ (by omega)]
        have h2 : natDigits n =
            natDigits (n / 10) ++ [digitChar (n % 10)] := by
          obtain ⟨k, rfl⟩ : ∃ k, n = k + 1 := ⟨n - 1, by omega⟩
          show natToDigitsAux (k + 1) (k + 1) [] = _
          have h3 : natToDigitsAux (k + 1) (k + 1) [] =
              natToDigitsAux k ((k + 1) / 10) [digitChar ((k + 1) % 10)] := by
            simp [natToDigitsAux]
          rw [h3, ih ((k + 1) / 10) hdiv k _ (by omega)]
        rw [h2]
        simp

theorem natDigits_zero : natDigits 0 = [] := rfl

theorem natDigits_succ (n : Nat) (h : n ≠ 0) :
    natDigits n = natDigits (n / 10) ++ [digitChar (n % 10)] := by
  obtain ⟨k, rfl⟩ : ∃ k, n = k + 1 := ⟨n - 1, by omega⟩
  show natToDigitsAux (k + 1) (k + 1) [] = _
  have h3 : natToDigitsAux (k + 1) (k + 1) [] =
      natToDigitsAux k ((k + 1) / 10) [digitChar ((k + 1) % 10)] := by
    simp [natToDigitsAux]
  rw [h3, natToDigitsAux_eq ((k + 1) / 10) k _ (by omega)]

theorem natDigits_all_digit (n : Nat) : (natDigits n).all isDigit = true := by
  induction n using Nat.strong_induction_on with
  | _ n ih =>
    by_cases hn : n = 0
    · subst hn; rfl
    · rw [natDigits_succ n hn]
      have hdiv : n / 10 < n := Nat.div_lt_self (by omega) (by omega)
      simp [List.all_append, ih (n / 10) hdiv, digitChar_isDigit]

theorem foldl_natDigits (n : Nat) : ∀ (a : Nat),
    List.foldl (fun a c => 10 * a + charToDigit c) a (natDigits n) =
      a * 10 ^ (natDigits n).length + n := by
  induction n using Nat.strong_induction_on with
  | _ n ih =>
    intro a
    by_cases hn : n = 0
    · subst hn; simp [natDigits_zero]
    · have hdiv : n / 10 < n := Nat.div_lt_self (by omega) (by omega)
      rw [natDigits_succ n hn]
      rw [List.foldl_append, ih (n / 10) hdiv a]
      simp only [List.foldl_cons, List.foldl_nil, List.length_append,
        List.length_cons, List.length_nil]
      rw [charToDigit_digitChar (n % 10) (by omega)]
      have : n = 10 * (n / 10) + n % 10 := by omega
      ring_nf
      omega

theorem digitsToNat_natDigits (n : Nat) : digitsToNat (natDigits n) = n := by
  unfold digitsToNat
  rw [foldl_natDigits n 0]
  simp

theorem natDigits_length_le (k : Nat) : ∀ (n : Nat), n < 10 ^ k →
    (natDigits n).length ≤ k := by
  induction k with
  | zero =>
    intro n hn
    have : n = 0 := by omega
    subst this; simp [natDigits_zero]
  | succ k ih =>
    intro n hn
    by_cases hz : n = 0
    · subst hz; simp [natDigits_zero]
    · rw [natDigits_succ n hz]
      have h10 : n / 10 < 10 ^ k := by
        have := Nat.pow_succ 10 k
        omega
      have := ih (n / 10) h10
      simp [List.length_append]
      omega

theorem natDigits_length_eq (k : Nat) : ∀ (n : Nat), 10 ^ k ≤ n →
    n < 10 ^ (k + 1) → (natDigits n).length = k + 1 := by
  induction k with
  | zero =>
    intro n h1 h2
    simp at h1 h2
    rw [natDigits_succ n (by omega)]
    have hz : n / 10 = 0 := by omega
    rw [hz, natDigits_zero]
    rfl
  | succ k ih =>
    intro n h1 h2
    have hz : n ≠ 0 := by
      have : 0 < 10 ^ (k + 1) := Nat.pos_pow_of_pos _ (by omega)
      omega
    rw [natDigits_succ n hz]
    have hlow : 10 ^ k ≤ n / 10 := by
      rw [Nat.le_div_iff_mul_le (by omega)]
      calc 10 ^ k * 10 = 10 ^ (k + 1) := (Nat.pow_succ 10 k).symm
        _ ≤ n := h1
    have hhigh : n / 10 < 10 ^ (k + 1) := by
      have h3 : n < 10 ^ (k + 1) * 10 := by
        rw [← Nat.pow_succ 10 (k + 1)]; exact h2
      omega
    rw [List.length_append, ih (n / 10) hlow hhigh]
    rfl

/-! Facts about `natToString` and `padStart2` -/

theorem natToString_pos (n : Nat) (h : n ≠ 0) : natToString n = natDigits n := by
  simp [natToString, h]

theorem digitsToNat_cons_zero (l : List Char) :
    digitsToNat ('0' :: l) = digitsToNat l := rfl

theorem digitsToNat_replicate_zero (k : Nat) (l : List Char) :
    digitsToNat (List.replicate k '0' ++ l) = digitsToNat l := by
  induction k with
  | zero => rfl
  | succ k ih =>
    rw [List.replicate_succ, List.cons_append]
    exact ih

theorem padStart2_two_digits (l : List Char) (h1 : 1 ≤ l.length)
    (h2 : l.length ≤ 2) :
    (padStart2 l).length = 2 ∧ (padStart2 l).all isDigit = l.all isDigit ∧
      digitsToNat (padStart2 l) = digitsToNat l := by
  unfold padStart2
  by_cases h : 2 ≤ l.length
  · rw [if_pos h]
    exact ⟨by omega, rfl, rfl⟩
  · have hl : l.length = 1 := by omega
    simp only [h, if_false]
    refine ⟨by simp [hl], ?_, digitsToNat_replicate_zero _ _⟩
    simp [List.all_append, List.all_replicate, hl]
    intro _
    decide

/-! Regex-backbone lemmas for `splitDMY` -/

theorem sep_not_digit (c : Char) (h : isSep c = true) : isDigit c = false := by
  simp only [isSep, Bool.or_eq_true, decide_eq_true_eq] at h
  rcases h with (h | h) | h <;> subst h <;> rfl

theorem takeWhile_append_all (p : Char → Bool) (l1 l2 : List Char)
    (h : l1.all p = true) :
    (l1 ++ l2).takeWhile p = l1 ++ l2.takeWhile p := by
  induction l1 with
  | nil => rfl
  | cons a l ih =>
    simp only [List.all_cons, Bool.and_eq_true] at h
    simp [List.takeWhile, h.1, ih h.2]

theorem dropWhile_append_all (p : Char → Bool) (l1 l2 : List Char)
    (h : l1.all p = true) :
    (l1 ++ l2).dropWhile p = l2.dropWhile p := by
  induction l1 with
  | nil => rfl
  | cons a l ih =>
    simp only [List.all_cons, Bool.and_eq_true] at h
    simp [List.dropWhile, h.1, ih h.2]

theorem takeWhile_all_eq (p : Char → Bool) (l : List Char)
    (h : l.all p = true) : l.takeWhile p = l := by
  have := takeWhile_append_all p l [] h
  simpa using this

theorem dropWhile_all_eq (p : Char → Bool) (l : List Char)
    (h : l.all p = true) : l.dropWhile p = [] := by
  have := dropWhile_append_all p l [] h
  simpa using this

theorem takeWhile_cons_neg (p : Char → Bool) (c : Char) (l : List Char)
    (h : p c = false) : (c :: l).takeWhile p = [] := by
  simp [List.takeWhile, h]

theorem dropWhile_cons_neg (p : Char → Bool) (c : Char) (l : List Char)
    (h : p c = false) : (c :: l).dropWhile p = c :: l := by
  simp [List.dropWhile, h]

theorem splitDMY_append (d1 d2 d3 : List Char) (c1 c2 : Char)
    (h1 : d1.all isDigit = true) (h2 : d2.all isDigit = true)
    (h3 : d3.all isDigit = true)
    (hc1 : isSep c1 = true) (hc2 : isSep c2 = true) :
    splitDMY (d1 ++ c1 :: (d2 ++ c2 :: d3)) = some (d1, d2, d3) := by
  have hd1 : isDigit c1 = false := sep_not_digit c1 hc1
  have hd2 : isDigit c2 = false := sep_not_digit c2 hc2
  unfold splitDMY
  rw [takeWhile_append_all isDigit d1 _ h1, takeWhile_cons_neg isDigit c1 _ hd1,
    dropWhile_append_all isDigit d1 _ h1, dropWhile_cons_neg isDigit c1 _ hd1]
  simp only [hc1, if_true, List.append_nil]
  rw [takeWhile_append_all isDigit d2 _ h2, takeWhile_cons_neg isDigit c2 _ hd2,
    dropWhile_append_all isDigit d2 _ h2, dropWhile_cons_neg isDigit c2 _ hd2]
  simp only [hc2, if_true, List.append_nil]
  rw [takeWhile_all_eq isDigit d3 h3, dropWhile_all_eq isDigit d3 h3]
  simp

theorem splitDMY_none_mid (d1 : List Char) (h1 : d1.all isDigit = true)
    (c c' : Char) (l : List Char) (hc : isSep c = true)
    (h' : isDigit c' = false) (h'' : isSep c' = false) :
    splitDMY (d1 ++ c :: c' :: l) = none := by
  have hd : isDigit c = false := sep_not_digit c hc
  unfold splitDMY
  rw [takeWhile_append_all isDigit d1 _ h1, takeWhile_cons_neg isDigit c _ hd,
    dropWhile_append_all isDigit d1 _ h1, dropWhile_cons_neg isDigit c _ hd]
  simp only [hc, if_true]
  rw [takeWhile_cons_neg isDigit c' _ h', dropWhile_cons_neg isDigit c' _ h']
  simp [h'']

theorem all_digit_false_of_sep (d1 rest : List Char) (c : Char)
    (hc : isDigit c = false) : ((d1 ++ c :: rest).all isDigit) = false := by
  simp [List.all_append, List.all_cons, hc]

theorem parseDateL_dmy (d1 d2 d3 : List Char) (c1 c2 : Char)
    (h1 : d1.all isDigit = true) (h2 : d2.all isDigit = true)
    (h3 : d3.all isDigit = true)
    (hl1 : d1.length = 1 ∨ d1.length = 2) (hl2 : d2.length = 1 ∨ d2.length = 2)
    (hl3 : d3.length = 4)
    (hc1 : isSep c1 = true) (hc2 : isSep c2 = true) :
    parseDateL (d1 ++ c1 :: (d2 ++ c2 :: d3)) =
      (if digitsToNat d2 ≤ 12 then
        some ⟨digitsToNat d1, digitsToNat d2, digitsToNat d3, false⟩
      else if digitsToNat d1 ≤ 12 then
        some ⟨digitsToNat d2, digitsToNat d1, digitsToNat d3, false⟩
      else
        some ⟨digitsToNat d1, min (digitsToNat d2) 12, digitsToNat d3,
          false⟩) := by
  have hsplit := splitDMY_append d1 d2 d3 c1 c2 h1 h2 h3 hc1 hc2
  have hall : ((d1 ++ c1 :: (d2 ++ c2 :: d3)).all isDigit) = false :=
    all_digit_false_of_sep _ _ _ (sep_not_digit c1 hc1)
  unfold parseDateL
  rw [if_neg (by simp : ¬(d1 ++ c1 :: (d2 ++ c2 :: d3) = [])),
    if_neg (by simp [hall])]
  simp only [hsplit]
  rw [if_pos ⟨hl1, hl2, hl3⟩]

theorem parseDateL_iso (d1 d2 d3 : List Char) (c1 c2 : Char)
    (h1 : d1.all isDigit = true) (h2 : d2.all isDigit = true)
    (h3 : d3.all isDigit = true)
    (hl1 : d1.length = 4) (hl2 : d2.length = 1 ∨ d2.length = 2)
    (hl3 : d3.length = 1 ∨ d3.length = 2)
    (hc1 : isSep c1 = true) (hc2 : isSep c2 = true) :
    parseDateL (d1 ++ c1 :: (d2 ++ c2 :: d3)) =
      some ⟨digitsToNat d3, digitsToNat d2, digitsToNat d1, false⟩ := by
  have hsplit := splitDMY_append d1 d2 d3 c1 c2 h1 h2 h3 hc1 hc2
  have hall : ((d1 ++ c1 :: (d2 ++ c2 :: d3)).all isDigit) = false :=
    all_digit_false_of_sep _ _ _ (sep_not_digit c1 hc1)
  unfold parseDateL
  rw [if_neg (by simp : ¬(d1 ++ c1 :: (d2 ++ c2 :: d3) = [])),
    if_neg (by simp [hall])]
  simp only [hsplit]
  rw [if_neg (by omega : ¬((d1.length = 1 ∨ d1.length = 2) ∧
      (d2.length = 1 ∨ d2.length = 2) ∧ d3.length = 4))]
  rw [if_pos ⟨hl1, hl2, hl3⟩]

/-- C1: on any input string of the shape `D sep M sep YYYY` (first and
second groups 1-2 digits, third group 4 digits, separators slash, dash or
dot), `parseDate` disambiguates day-first: if the second group is ≤ 12 the
result is day = first, month = second; otherwise if the first group is
≤ 12 the result is day = second, month = first; otherwise (both groups
exceed 12) the result is day = first, month = min(second, 12). -/
theorem parseDate_dayfirst_disambiguation (s : String) (d1 d2 d3 : List Char)
    (c1 c2 : Char) (hs : s.data = d1 ++ c1 :: (d2 ++ c2 :: d3))
    (h1 : d1.all isDigit = true) (h2 : d2.all isDigit = true)
    (h3 : d3.all isDigit = true)
    (hl1 : d1.length = 1 ∨ d1.length = 2) (hl2 : d2.length = 1 ∨ d2.length = 2)
    (hl3 : d3.length = 4)
    (hc1 : isSep c1 = true) (hc2 : isSep c2 = true) :
    (digitsToNat d2 ≤ 12 →
      parseDate s =
        some ⟨digitsToNat d1, digitsToNat d2, digitsToNat d3, false⟩) ∧
    (12 < digitsToNat d2 → digitsToNat d1 ≤ 12 →
      parseDate s =
        some ⟨digitsToNat d2, digitsToNat d1, digitsToNat d3, false⟩) ∧
    (12 < digitsToNat d2 → 12 < digitsToNat d1 →
      parseDate s =
        some ⟨digitsToNat d1, min (digitsToNat d2) 12, digitsToNat d3,
          false⟩) := by
  unfold parseDate
  rw [hs, parseDateL_dmy d1 d2 d3 c1 c2 h1 h2 h3 hl1 hl2 hl3 hc1 hc2]
  refine ⟨fun hle => ?_, fun hgt hle => ?_, fun hgt1 hgt2 => ?_⟩
  · rw [if_pos hle]
  · rw [if_neg (by omega), if_pos hle]
  · rw [if_neg (by omega), if_neg (by omega)]

/-- C1 witness at the concrete input `"03/25/1990"` of the claim. -/
theorem parseDate_dayfirst_disambiguation_witness :
    parseDate "03/25/1990" = some ⟨25, 3, 1990, false⟩ := by
  have h := (parseDate_dayfirst_disambiguation "03/25/1990"
    ['0', '3'] ['2', '5'] ['1', '9', '9', '0'] '/' '/'
    (by decide) (by decide) (by decide) (by decide)
    (by decide) (by decide) (by decide) (by decide) (by decide)).2.1
    (by decide) (by decide)
  rw [h]
  decide

/-- C3 (code bug evidence): `parseDate` performs no range validation, so
the input `"45/10/1990"` yields a canonical date whose day component 45
exceeds the documented upper bound 31. -/
theorem parseDate_day_out_of_range :
    parseDate "45/10/1990" = some ⟨45, 10, 1990, false⟩ ∧ 31 < 45 := by
  decide

/-- C7: every input matching `^\d{4}$` parses to
`{day 1, month 1, year, yearOnly true}`, and every input matching none of
the three recognized shapes parses to `none`; the embedding `parseDate`
is a total function, so no exception is possible and the absent result is
the only failure signal. -/
theorem parseDate_yearOnly_and_nomatch (s : String) :
    (matchesYearOnly s.data = true →
      parseDate s = some ⟨1, 1, digitsToNat s.data, true⟩) ∧
    (matchesYearOnly s.data = false → matchesDMY s.data = false →
      matchesISO s.data = false → parseDate s = none) := by
  constructor
  · intro hy
    simp only [matchesYearOnly, Bool.and_eq_true, decide_eq_true_eq] at hy
    unfold parseDate parseDateL
    rw [if_neg (by intro h; rw [h] at hy; simp at hy), if_pos ⟨hy.1, hy.2⟩]
  · intro hy hdmy hiso
    unfold parseDate parseDateL
    by_cases hnil : s.data = []
    · rw [if_pos hnil]
    · rw [if_neg hnil]
      have hyP : ¬(s.data.length = 4 ∧ s.data.all isDigit = true) := by
        intro hcond
        have : matchesYearOnly s.data = true := by
          simp [matchesYearOnly, hcond.1, hcond.2]
        rw [this] at hy
        exact Bool.noConfusion hy
      rw [if_neg hyP]
      cases hsplit : splitDMY s.data with
      | none => rfl
      | some t =>
        obtain ⟨e1, e2, e3⟩ := t
        unfold matchesDMY at hdmy
        unfold matchesISO at hiso
        rw [hsplit] at hdmy hiso
        dsimp only at hdmy hiso ⊢
        rw [if_neg (of_decide_eq_false hdmy), if_neg (of_decide_eq_false hiso)]

/-- C7 witness: the year-only branch at `"1990"` and the no-match branch
at `"hello"`. -/
theorem parseDate_yearOnly_and_nomatch_witness :
    parseDate "1990" = some ⟨1, 1, 1990, true⟩ ∧ parseDate "hello" = none := by
  constructor
  · have h := (parseDate_yearOnly_and_nomatch "1990").1 (by decide)
    rw [h]
    decide
  · exact (parseDate_yearOnly_and_nomatch "hello").2 (by decide) (by decide)
      (by decide)

/-! Components of formatted dates -/

theorem padded_component (n : Nat) (h1 : 1 ≤ n) (h2 : n ≤ 99) :
    (padStart2 (natToString n)).length = 2 ∧
    (padStart2 (natToString n)).all isDigit = true ∧
    digitsToNat (padStart2 (natToString n)) = n := by
  rw [natToString_pos n (by omega)]
  have hlen_le : (natDigits n).length ≤ 2 := by
    refine natDigits_length_le 2 n ?_
    rw [(by norm_num : (10:Nat) ^ 2 = 100)]
    omega
  have hlen_ge : 1 ≤ (natDigits n).length := by
    rw [natDigits_succ n (by omega)]
    simp
  obtain ⟨a, b, c⟩ := padStart2_two_digits (natDigits n) hlen_ge hlen_le
  exact ⟨a, by rw [b]; exact natDigits_all_digit n,
    by rw [c]; exact digitsToNat_natDigits n⟩

theorem year_component (n : Nat) (h1 : 1000 ≤ n) (h2 : n ≤ 9999) :
    (natToString n).length = 4 ∧ (natToString n).all isDigit = true ∧
    digitsToNat (natToString n) = n := by
  rw [natToString_pos n (by omega)]
  refine ⟨natDigits_length_eq 3 n ?_ ?_, natDigits_all_digit n,
    digitsToNat_natDigits n⟩
  · rw [(by norm_num : (10:Nat) ^ 3 = 1000)]
    omega
  · rw [(by norm_num : (10:Nat) ^ (3 + 1) = 10000)]
    omega

theorem fmt_ddmm_slash (d : CanonicalDate) :
    formatDateToExpectedL d "DD/MM/YYYY" =
      padStart2 (natToString d.day) ++
        '/' :: (padStart2 (natToString d.month) ++ '/' :: natToString d.year)
    := rfl

theorem fmt_ddmm_dash (d : CanonicalDate) :
    formatDateToExpectedL d "DD-MM-YYYY" =
      padStart2 (natToString d.day) ++
        '-' :: (padStart2 (natToString d.month) ++ '-' :: natToString d.year)
    := rfl

theorem fmt_mmdd_slash (d : CanonicalDate) :
    formatDateToExpectedL d "MM/DD/YYYY" =
      padStart2 (natToString d.month) ++
        '/' :: (padStart2 (natToString d.day) ++ '/' :: natToString d.year)
    := rfl

theorem fmt_iso (d : CanonicalDate) :
    formatDateToExpectedL d "YYYY-MM-DD" =
      natToString d.year ++
        '-' :: (padStart2 (natToString d.month) ++
          '-' :: padStart2 (natToString d.day)) := rfl

theorem fmt_mon (d : CanonicalDate) :
    formatDateToExpectedL d "DD-Mon-YYYY" =
      padStart2 (natToString d.day) ++
        '-' :: ((if d.month = 0 then "undefined".data
          else (monthNamesFmt.getD (d.month - 1) "undefined").data) ++
          '-' :: natToString d.year) := rfl

theorem parseDateL_none_of_mid (d1 : List Char) (h1 : d1.all isDigit = true)
    (c c' : Char) (l : List Char) (hc : isSep c = true)
    (h' : isDigit c' = false) (h'' : isSep c' = false) :
    parseDateL (d1 ++ c :: c' :: l) = none := by
  have hsplit := splitDMY_none_mid d1 h1 c c' l hc h' h''
  unfold parseDateL
  rw [if_neg (by simp : ¬(d1 ++ c :: c' :: l = [])),
    if_neg (by simp [all_digit_false_of_sep d1 (c' :: l) c
      (sep_not_digit c hc)])]
  simp only [hsplit]

/-- C2 counterexample: the unambiguous format `DD-Mon-YYYY` does not
round-trip — `parseDate` cannot read the month-name output of
`formatDateToExpected` at all, so the round trip fails outside the
permitted `MM/DD/YYYY`, day ≤ 12 cases. -/
theorem roundtrip_fails_for_mon :
    parseDate (formatDateToExpected ⟨25, 3, 1990, false⟩ "DD-Mon-YYYY") ≠
      some ⟨25, 3, 1990, false⟩ := by
  decide

/-- C2 (amended): for a valid `CanonicalDate` (day 1-31, month 1-12,
4-digit year, `yearOnly` unset) the round trip
`parseDate (formatDateToExpected d F)` reproduces `d` for the formats
`DD/MM/YYYY`, `DD-MM-YYYY` and `YYYY-MM-DD`, and for `MM/DD/YYYY`
whenever day > 12; for `DD-Mon-YYYY` the round trip always fails with
`none`, because `parseDate` recognizes no month-name shape. -/
theorem roundtrip_characterization (d : CanonicalDate)
    (hd1 : 1 ≤ d.day) (hd2 : d.day ≤ 31)
    (hm1 : 1 ≤ d.month) (hm2 : d.month ≤ 12)
    (hy1 : 1000 ≤ d.year) (hy2 : d.year ≤ 9999)
    (hyo : d.yearOnly = false) :
    parseDate (formatDateToExpected d "DD/MM/YYYY") = some d ∧
    parseDate (formatDateToExpected d "DD-MM-YYYY") = some d ∧
    parseDate (formatDateToExpected d "YYYY-MM-DD") = some d ∧
    (12 < d.day → parseDate (formatDateToExpected d "MM/DD/YYYY") = some d) ∧
    parseDate (formatDateToExpected d "DD-Mon-YYYY") = none := by
  obtain ⟨dday, dmonth, dyear, dyo⟩ := d
  simp only at hd1 hd2 hm1 hm2 hy1 hy2 hyo
  subst hyo
  obtain ⟨dayLen, dayDig, dayVal⟩ := padded_component dday hd1 (by omega)
  obtain ⟨monLen, monDig, monVal⟩ := padded_component dmonth hm1 (by omega)
  obtain ⟨yearLen, yearDig, yearVal⟩ := year_component dyear hy1 hy2
  refine ⟨?_, ?_, ?_, ?_, ?_⟩
  · show parseDateL (formatDateToExpectedL ⟨dday, dmonth, dyear, false⟩
      "DD/MM/YYYY") = _
    rw [fmt_ddmm_slash, parseDateL_dmy _ _ _ _ _ dayDig monDig yearDig
      (Or.inr dayLen) (Or.inr monLen) yearLen (by decide) (by decide)]
    rw [if_pos (by rw [monVal]; exact hm2)]
    rw [dayVal, monVal, yearVal]
  · show parseDateL (formatDateToExpectedL ⟨dday, dmonth, dyear, false⟩
      "DD-MM-YYYY") = _
    rw [fmt_ddmm_dash, parseDateL_dmy _ _ _ _ _ dayDig monDig yearDig
      (Or.inr dayLen) (Or.inr monLen) yearLen (by decide) (by decide)]
    rw [if_pos (by rw [monVal]; exact hm2)]
    rw [dayVal, monVal, yearVal]
  · show parseDateL (formatDateToExpectedL ⟨dday, dmonth, dyear, false⟩
      "YYYY-MM-DD") = _
    rw [fmt_iso, parseDateL_iso _ _ _ _ _ yearDig monDig dayDig
      yearLen (Or.inr monLen) (Or.inr dayLen) (by decide) (by decide)]
    rw [dayVal, monVal, yearVal]
  · intro hgt
    dsimp only at hgt
    show parseDateL (formatDateToExpectedL ⟨dday, dmonth, dyear, false⟩
      "MM/DD/YYYY") = _
    rw [fmt_mmdd_slash, parseDateL_dmy _ _ _ _ _ monDig dayDig yearDig
      (Or.inr monLen) (Or.inr dayLen) yearLen (by decide) (by decide)]
    rw [if_neg (by rw [dayVal]; omega), if_pos (by rw [monVal]; exact hm2)]
    rw [dayVal, monVal, yearVal]
  · show parseDateL (formatDateToExpectedL ⟨dday, dmonth, dyear, false⟩
      "DD-Mon-YYYY") = _
    rw [fmt_mon]
    simp only
    interval_cases dmonth <;>
      exact parseDateL_none_of_mid _ dayDig '-' _ _ (by decide) (by decide)
        (by decide)

/-- C2 witness at the concrete date 25 March 1990 (day > 12, so all five
conjuncts are exercised). -/
theorem roundtrip_characterization_witness :
    parseDate (formatDateToExpected ⟨25, 3, 1990, false⟩ "DD/MM/YYYY") =
        some ⟨25, 3, 1990, false⟩ ∧
      parseDate (formatDateToExpected ⟨25, 3, 1990, false⟩ "MM/DD/YYYY") =
        some ⟨25, 3, 1990, false⟩ ∧
      parseDate (formatDateToExpected ⟨25, 3, 1990, false⟩ "DD-Mon-YYYY") =
        none := by
  have h := roundtrip_characterization ⟨25, 3, 1990, false⟩ (by decide)
    (by decide) (by decide) (by decide) (by decide) (by decide) (by decide)
  exact ⟨h.1, h.2.2.2.1 (by decide), h.2.2.2.2⟩

/-- C4 counterexample: a control named `name` is classified with field
type `"name"` (the first `FIELD_MAPPING` key), which lies outside the
spec's fifteen-entry vocabulary. -/
theorem identifyField_name_outside_vocabulary :
    identifyField { blankInput with name := "name" } =
        some ⟨"name", "name", "name"⟩ ∧
      "name" ∉ semanticFieldTypes := by
  decide

/-- C4 (amended): every non-null `identifyField` classification carries
one of the thirteen keys of `FIELD_MAPPING` — which include `name`,
a type outside the spec's fifteen-entry vocabulary, and omit
`full_name_regional`, `driving_license_number` and `blood_group`. -/
theorem identifyField_fieldType_mem (input : Element) (r : FieldInfo)
    (h : identifyField input = some r) :
    r.fieldType ∈ ["name", "full_name", "father_name", "aadhaar_number",
      "pan_number", "voter_id_number", "date_of_birth", "gender", "address",
      "mobile_number", "email", "community", "annual_income"] := by
  unfold identifyField at h
  split at h
  · simp at h
  · obtain ⟨entry, hmem, hentry⟩ := List.exists_of_findSome?_eq_some h
    obtain ⟨pat, hpmem, hpat⟩ := List.exists_of_findSome?_eq_some hentry
    obtain ⟨ident, himem, hident⟩ := List.exists_of_findSome?_eq_some hpat
    have hft : r.fieldType = entry.1 := by
      split at hident
      · cases hident
        rfl
      · cases hident
    rw [hft]
    fin_cases hmem <;> decide

/-- C4 witness: the amended theorem applied to the classification of a
control named `aadhar_no` (the spec's own classifier test case). -/
theorem identifyField_fieldType_mem_witness :
    (⟨"aadhaar_number", "aadhar_no", "aadhar_no"⟩ : FieldInfo).fieldType ∈
      ["name", "full_name", "father_name", "aadhaar_number", "pan_number",
       "voter_id_number", "date_of_birth", "gender", "address",
       "mobile_number", "email", "community", "annual_income"] :=
  identifyField_fieldType_mem { blankInput with name := "aadhar_no" }
    ⟨"aadhaar_number", "aadhar_no", "aadhar_no"⟩ (by decide)

/-- C9: a control whose name, id, placeholder, resolved label text and
aria-label are all empty is never classified: the falsy filter leaves an
empty identifier bag, so no pattern can match. -/
theorem identifyField_all_empty_none (input : Element)
    (h1 : input.name = "") (h2 : input.id = "") (h3 : input.placeholder = "")
    (h4 : input.labelText = "") (h5 : input.ariaLabel = "") :
    identifyField input = none := by
  unfold identifyField
  split
  · rfl
  · rw [h1, h2, h3, h4, h5]
    decide

/-- C9 witness: the blank text input. -/
theorem identifyField_all_empty_none_witness :
    identifyField blankInput = none :=
  identifyField_all_empty_none blankInput rfl rfl rfl rfl rfl

/-- C6: for a sensitive field type, masking replaces all but the last 4
characters with `X` (vacuously none when the value has at most 4) and
preserves the length. -/
theorem maskSensitiveValue_masks (fieldType value : String)
    (h : fieldType ∈ sensitiveFields) :
    (maskSensitiveValue fieldType value).data =
        List.replicate (value.length - 4) 'X' ++
          value.data.drop (value.length - 4) ∧
      (maskSensitiveValue fieldType value).length = value.length := by
  unfold maskSensitiveValue
  have hlen : value.length = value.data.length := rfl
  by_cases hl : 4 < value.length
  · rw [if_pos ⟨h, hl⟩]
    constructor
    · rfl
    · show (List.replicate (value.length - 4) 'X' ++
        value.data.drop (value.data.length - 4)).length = value.length
      rw [List.length_append, List.length_replicate, List.length_drop]
      omega
  · rw [if_neg (fun hc => hl hc.2)]
    have h4 : value.length - 4 = 0 := by omega
    rw [h4]
    simp

/-- C6 witness at the spec's masking example. -/
theorem maskSensitiveValue_masks_witness :
    maskSensitiveValue "pan_number" "ABCDE1234F" = "XXXXXX234F" ∧
      (maskSensitiveValue "pan_number" "ABCDE1234F").length =
        ("ABCDE1234F" : String).length := by
  refine ⟨by decide, ?_⟩
  exact (maskSensitiveValue_masks "pan_number" "ABCDE1234F" (by decide)).2

/-- C10: masking is the identity whenever the value has at most 4
characters (even for sensitive field types) or the field type is outside
the sensitive subset. -/
theorem maskSensitiveValue_id (fieldType value : String)
    (h : value.length ≤ 4 ∨ fieldType ∉ sensitiveFields) :
    maskSensitiveValue fieldType value = value := by
  unfold maskSensitiveValue
  rw [if_neg]
  rintro ⟨hmem, hlen⟩
  rcases h with h | h
  · omega
  · exact h hmem

/-- C10 witness: a 4-character Aadhaar value and a long non-sensitive
value, both unchanged. -/
theorem maskSensitiveValue_id_witness :
    maskSensitiveValue "aadhaar_number" "1234" = "1234" ∧
      maskSensitiveValue "email" "someone@example.com" =
        "someone@example.com" := by
  constructor
  · exact maskSensitiveValue_id "aadhaar_number" "1234" (Or.inl (by decide))
  · exact maskSensitiveValue_id "email" "someone@example.com"
      (Or.inr (by decide))

/-- C8 counterexample: (a) the `dd` hint is read from the name attribute
only, so a select whose id is `dd` (name empty, no options) resolves to
`none`, not `day`; (b) with no hints, 14 numeric options all equal to 12
resolve to `month` although there are more than 13 numeric options,
because `max === 12` short-circuits the option-count restriction. -/
theorem detectSelectPurpose_claim_false :
    detectSelectPurpose { blankInput with tagName := "SELECT", id := "dd" }
        [] = none ∧
      detectSelectPurpose { blankInput with tagName := "SELECT" }
        (List.replicate 14 ⟨"12", ""⟩) = some "month" := by
  decide

/-- C8 (amended): the resolver first applies the name/id substring hints
— `day` and `month` and `year` are checked on both name and id, while
`dd`, `mm`, `yyyy` and `yy` are checked on the name only — then falls
back to content inspection: any option value-or-text starting with a
three-letter month abbreviation gives `month`; otherwise, with `mx` the
maximum of the purely-numeric option values, `mx` in `[28, 31]` gives
`day`; `mx = 12` (any option count) or `mx ≤ 12` with at most 13 numeric
options gives `month`; `mx > 1900` gives `year`; everything else gives
`none`. -/
theorem detectSelectPurpose_resolution (element : Element)
    (options : List OptionEl) :
    (dayHint element = true →
      detectSelectPurpose element options = some "day") ∧
    (dayHint element = false → monthHint element = true →
      detectSelectPurpose element options = some "month") ∧
    (dayHint element = false → monthHint element = false →
      yearHint element = true →
      detectSelectPurpose element options = some "year") ∧
    (dayHint element = false → monthHint element = false →
      yearHint element = false →
      (optionValues options).any startsWithMonthName = true →
      detectSelectPurpose element options = some "month") ∧
    (dayHint element = false → monthHint element = false →
      yearHint element = false →
      (optionValues options).any startsWithMonthName = false →
      numericOptionValues options = [] →
      detectSelectPurpose element options = none) ∧
    (dayHint element = false → monthHint element = false →
      yearHint element = false →
      (optionValues options).any startsWithMonthName = false →
      0 < (numericOptionValues options).length →
      (28 ≤ (numericOptionValues options).foldl max 0 ∧
        (numericOptionValues options).foldl max 0 ≤ 31 →
        detectSelectPurpose element options = some "day") ∧
      (¬((numericOptionValues options).foldl max 0 ≤ 31 ∧
          28 ≤ (numericOptionValues options).foldl max 0) →
        ((numericOptionValues options).foldl max 0 = 12 ∨
          ((numericOptionValues options).foldl max 0 ≤ 12 ∧
            (numericOptionValues options).length ≤ 13)) →
        detectSelectPurpose element options = some "month") ∧
      (¬((numericOptionValues options).foldl max 0 ≤ 31 ∧
          28 ≤ (numericOptionValues options).foldl max 0) →
        ¬((numericOptionValues options).foldl max 0 = 12 ∨
          ((numericOptionValues options).foldl max 0 ≤ 12 ∧
            (numericOptionValues options).length ≤ 13)) →
        (1900 < (numericOptionValues options).foldl max 0 →
          detectSelectPurpose element options = some "year") ∧
        (¬(1900 < (numericOptionValues options).foldl max 0) →
          detectSelectPurpose element options = none))) := by
  unfold detectSelectPurpose
  refine ⟨fun h1 => ?_, fun h1 h2 => ?_, fun h1 h2 h3 => ?_,
    fun h1 h2 h3 h4 => ?_, fun h1 h2 h3 h4 h5 => ?_,
    fun h1 h2 h3 h4 h5 => ?_⟩
  · simp [h1]
  · simp [h1, h2]
  · simp [h1, h2, h3]
  · simp [h1, h2, h3, h4]
  · simp [h1, h2, h3, h4, h5]
  · refine ⟨fun hday => ?_, fun hnday hmon => ?_, fun hnday hnmon => ?_⟩
    · simp only [h1, h2, h3, h4, Bool.false_eq_true, if_false, if_pos h5]
      rw [if_pos ⟨hday.2, hday.1⟩]
    · simp only [h1, h2, h3, h4, Bool.false_eq_true, if_false, if_pos h5]
      rw [if_neg hnday, if_pos hmon]
    · constructor
      · intro hyear
        simp only [h1, h2, h3, h4, Bool.false_eq_true, if_false, if_pos h5]
        rw [if_neg hnday, if_neg hnmon, if_pos hyear]
      · intro hnyear
        simp only [h1, h2, h3, h4, Bool.false_eq_true, if_false, if_pos h5]
        rw [if_neg hnday, if_neg hnmon, if_neg hnyear]

/-- C8 witness: the three hint clauses and the numeric `day` clause at
concrete selects (name `dd`; name `mm`; id `year`; options 1..31). -/
theorem detectSelectPurpose_resolution_witness :
    detectSelectPurpose { blankInput with tagName := "SELECT", name := "dd" }
        [] = some "day" ∧
      detectSelectPurpose
        { blankInput with tagName := "SELECT", name := "mm" } [] =
          some "month" ∧
      detectSelectPurpose
        { blankInput with tagName := "SELECT", id := "year" } [] =
          some "year" ∧
      detectSelectPurpose { blankInput with tagName := "SELECT" }
        [⟨"1", ""⟩, ⟨"31", ""⟩] = some "day" := by
  refine ⟨(detectSelectPurpose_resolution _ _).1 (by decide),
    (detectSelectPurpose_resolution _ _).2.1 (by decide) (by decide),
    (detectSelectPurpose_resolution _ _).2.2.1 (by decide) (by decide)
      (by decide),
    ((detectSelectPurpose_resolution _ _).2.2.2.2.2 (by decide) (by decide)
      (by decide) (by decide) (by decide)).1 (by decide)⟩

/-- C5 counterexample: on a date-related select with a parseable date
value, the fill operation returns early after dispatching only the
synthetic `change` event — no `input` event is dispatched on that path. -/
theorem fillField_missing_input_event :
    (fillField dobDaySelect "25/03/1990" none).2 = ["change"] ∧
      "input" ∉ (fillField dobDaySelect "25/03/1990" none).2 := by
  decide

/-- C5 (amended): the fill operation dispatches the synthetic `input` and
`change` events, in that order, on every path except one — a select that
is date-related (field type date-of-birth, or a day/month/year/date/dob
hint in its name or id) receiving a value `parseDate` accepts returns
early after dispatching only `change`. -/
theorem fillField_events (element : Element) (value : String)
    (fieldType : Option String) :
    (fillField element value fieldType).2 =
      if element.tagName = "SELECT" ∧
          (fieldType = some "date_of_birth" ∨
            isDateRelatedSelect element = true) ∧
          (parseDate value).isSome = true then
        ["change"]
      else ["input", "change"] := by
  unfold fillField
  by_cases hs : element.tagName = "SELECT"
  · rw [if_pos hs]
    by_cases hd : fieldType = some "date_of_birth" ∨
        isDateRelatedSelect element = true
    · rw [if_pos hd]
      cases hp : parseDate value with
      | some dv =>
        simp only [hp]
        have hcond : element.tagName = "SELECT" ∧
            (fieldType = some "date_of_birth" ∨
              isDateRelatedSelect element = true) ∧
            (some dv).isSome = true := ⟨hs, hd, rfl⟩
        rw [if_pos hcond]
      | none =>
        simp only [hp]
        have hcond : ¬(element.tagName = "SELECT" ∧
            (fieldType = some "date_of_birth" ∨
              isDateRelatedSelect element = true) ∧
            (none : Option CanonicalDate).isSome = true) :=
          fun hc => Bool.noConfusion hc.2.2
        rw [if_neg hcond]
    · have hcond : ¬(element.tagName = "SELECT" ∧
          (fieldType = some "date_of_birth" ∨
            isDateRelatedSelect element = true) ∧
          (parseDate value).isSome = true) := fun hc => hd hc.2.1
      rw [if_neg hd, if_neg hcond]
  · have hcond : ¬(element.tagName = "SELECT" ∧
        (fieldType = some "date_of_birth" ∨
          isDateRelatedSelect element = true) ∧
        (parseDate value).isSome = true) := fun hc => hs hc.1
    rw [if_neg hs]
    by_cases hr : element.type = "radio" ∨ element.type = "checkbox"
    · rw [if_pos hr, if_neg hcond]
    · rw [if_neg hr]
      by_cases hdate : element.type = "date"
      · rw [if_pos hdate, if_neg hcond]
      · rw [if_neg hdate, if_neg hcond]
